import Mathlib

/-!
Shallow embedding of `zhusuan/sgmcmc.py`: the stochastic-gradient MCMC
samplers SGLD, PSGLD, SGHMC and SGNHT.

Modelling conventions, kept uniform through the file:

* Tensors are modelled element-wise over the reals.  Updates that the code
  performs element-wise on a tensor are embedded as functions on a single
  real component; where a reduction over elements matters (the
  `tf.reduce_mean` in SGNHT), a tensor of shape `n` is a function
  `Fin n → ℝ`.
* `tf.random_normal(shape, stddev=s)` draws `s * z` with `z` a standard
  normal.  The standard-normal draw `z` is passed in as an explicit input,
  so every definition is a deterministic function of the state and of the
  draws.  A claim "the noise has variance sigma2" becomes "the stddev the
  code passes to the sampler squares to sigma2".
* `tf.cond(pred, a, b)` on a boolean tensor is `if pred then a else b`.
* `tf.assign(x, e)` returns the newly assigned value; mutation is made
  explicit by returning the new value of the storage cell.
* The iteration counter `self.t` (a `tf.int32` variable starting at 0 and
  incremented once per sampling call) is an explicit argument `t : ℤ`;
  `tf.mod` on it is `Int.emod`.
-/

/-- One element of `tf.random_normal(shape, stddev=s)`: the standard normal
draw `z` scaled by the stddev the code passes in. -/
noncomputable def random_normal (stddev z : ℝ) : ℝ := stddev * z

/-- Hyperparameters of `SGLD.__init__` (also carried by its subclass PSGLD):
`self.lr` and `self.add_noise`. -/
structure SGLDParams where
  lr : ℝ
  add_noise : Bool

/-- Embedding of `SGLD._update_single`: `new_q = q + 0.5 * lr * grad`, plus
`tf.random_normal(tf.shape(q), stddev=tf.sqrt(lr))` when `add_noise`. -/
noncomputable def SGLD.update_single (s : SGLDParams) (q grad z : ℝ) : ℝ :=
  let new_q := q + 0.5 * s.lr * grad
  let new_q_with_noise := new_q + random_normal (Real.sqrt s.lr) z
  if s.add_noise then new_q_with_noise else new_q

/-- The named tuple `PSGLD.RMSPreconditioner.HParams`, fields decay and epsilon. -/
structure RMSHParams where
  decay : ℝ
  epsilon : ℝ

/-- Embedding of `PSGLD.RMSPreconditioner.default_hps`: decay 0.9, epsilon 1e-3. -/
noncomputable def RMSPreconditioner.default_hps : RMSHParams := ⟨0.9, 1e-3⟩

/-- Embedding of `PSGLD.RMSPreconditioner._define_variables`: one accumulator per latent
variable, initialized to `tf.zeros_like(q)`. -/
noncomputable def RMSPreconditioner.define_variable (_q : ℝ) : ℝ := 0

/-- Embedding of `PSGLD.RMSPreconditioner._get_preconditioner`:
`aux = tf.assign(aux, decay * aux + (1-decay) * grad**2)` followed by
`1 / (epsilon + tf.sqrt(aux))`.  Returns the preconditioner together with the
newly assigned accumulator value. -/
noncomputable def RMSPreconditioner.get_preconditioner (hps : RMSHParams) (_q grad aux : ℝ) :
    ℝ × ℝ :=
  let aux' := hps.decay * aux + (1 - hps.decay) * grad ^ 2
  (1 / (hps.epsilon + Real.sqrt aux'), aux')

/-- Embedding of `PSGLD._update_single`: preconditioned SGLD step.  Returns the new latent
value and the new accumulator value. -/
noncomputable def PSGLD.update_single (s : SGLDParams) (hps : RMSHParams) (q grad aux z : ℝ) :
    ℝ × ℝ :=
  let ga := RMSPreconditioner.get_preconditioner hps q grad aux
  let g := ga.1
  let new_q := q + 0.5 * s.lr * g * grad
  let new_q_with_noise := new_q + random_normal (Real.sqrt (s.lr * g)) z
  (if s.add_noise then new_q_with_noise else new_q, ga.2)

/-- C2: an SGLD step with noise disabled is exactly `q + 0.5*eta*g`; with noise
enabled it adds `sqrt(eta) * z`, Gaussian noise of variance `eta` (the stddev
passed to the normal sampler squares to the learning rate); and concretely,
with `log_joint(q) = -0.5*q^2` (gradient `-q`), `learning_rate = 0.01`,
`add_noise = False`, initial `q = 10`, one step yields exactly `9.95`. -/
theorem sgld_update_single_spec (s : SGLDParams) (q g z : ℝ) (hlr : 0 ≤ s.lr) :
    (s.add_noise = false → SGLD.update_single s q g z = q + 0.5 * s.lr * g) ∧
    (s.add_noise = true →
      SGLD.update_single s q g z = q + 0.5 * s.lr * g + Real.sqrt s.lr * z) ∧
    Real.sqrt s.lr ^ 2 = s.lr ∧
    SGLD.update_single ⟨1/100, false⟩ 10 (-10) z = 9.95 := by
  refine ⟨fun h => ?_, fun h => ?_, Real.sq_sqrt hlr, ?_⟩
  · simp [SGLD.update_single, h]
  · simp [SGLD.update_single, h, random_normal]
  · simp only [SGLD.update_single, random_normal, Bool.false_eq_true, if_false]
    norm_num

/-- Witness for `sgld_update_single_spec` at `lr = 1/100`, `add_noise = false`,
`q = 10`, `g = -10`, `z = 0`. -/
theorem sgld_update_single_spec_witness :
    SGLD.update_single ⟨1/100, false⟩ 10 (-10) 0 = 9.95 :=
  (sgld_update_single_spec ⟨1/100, false⟩ 10 (-10) 0 (by norm_num)).2.2.2

/-- C6: each PSGLD step updates the accumulator to
`aux' = decay*aux + (1-decay)*g^2`, forms `G = 1/(epsilon + sqrt aux')`, moves
the latent to `q + 0.5*eta*G*g` (noise disabled), adds Gaussian noise of
variance `eta*G` when noise is enabled (the stddev squares to `eta*G`), the
default hyperparameters are `decay = 0.9`, `epsilon = 1e-3`, and the
accumulator starts at zero. -/
theorem psgld_update_single_spec (s : SGLDParams) (hps : RMSHParams)
    (q g aux z : ℝ)
    (hG : 0 ≤ s.lr * (1 / (hps.epsilon +
      Real.sqrt (hps.decay * aux + (1 - hps.decay) * g ^ 2)))) :
    (PSGLD.update_single s hps q g aux z).2 =
      hps.decay * aux + (1 - hps.decay) * g ^ 2 ∧
    (s.add_noise = false →
      (PSGLD.update_single s hps q g aux z).1 =
        q + 0.5 * s.lr *
          (1 / (hps.epsilon +
            Real.sqrt (hps.decay * aux + (1 - hps.decay) * g ^ 2))) * g) ∧
    (s.add_noise = true →
      (PSGLD.update_single s hps q g aux z).1 =
        q + 0.5 * s.lr *
          (1 / (hps.epsilon +
            Real.sqrt (hps.decay * aux + (1 - hps.decay) * g ^ 2))) * g +
        Real.sqrt (s.lr *
          (1 / (hps.epsilon +
            Real.sqrt (hps.decay * aux + (1 - hps.decay) * g ^ 2)))) * z) ∧
    Real.sqrt (s.lr *
        (1 / (hps.epsilon +
          Real.sqrt (hps.decay * aux + (1 - hps.decay) * g ^ 2)))) ^ 2 =
      s.lr * (1 / (hps.epsilon +
        Real.sqrt (hps.decay * aux + (1 - hps.decay) * g ^ 2))) ∧
    RMSPreconditioner.default_hps = ⟨0.9, 1e-3⟩ ∧
    RMSPreconditioner.define_variable q = 0 := by
  refine ⟨rfl, fun h => ?_, fun h => ?_, Real.sq_sqrt hG, rfl, rfl⟩
  · simp [PSGLD.update_single, RMSPreconditioner.get_preconditioner, h]
  · simp [PSGLD.update_single, RMSPreconditioner.get_preconditioner, h,
      random_normal]

/-- Witness for `psgld_update_single_spec` at the default hyperparameters,
`lr = 1`, `add_noise = false`, `q = 1`, `g = 0`, `aux = 0`, `z = 0`. -/
theorem psgld_update_single_spec_witness :
    (PSGLD.update_single ⟨1, false⟩ ⟨0.9, 1e-3⟩ 1 0 0 0).2 =
      0.9 * 0 + (1 - 0.9) * 0 ^ 2 :=
  (psgld_update_single_spec ⟨1, false⟩ ⟨0.9, 1e-3⟩ 1 0 0 0 (by positivity)).1

/-- Hyperparameters of `SGHMC.__init__`: `self.lr`, `self.alpha` (friction),
`self.beta` (variance estimate), `self.n_iter_resample_v` (with `None` already
coerced to `0` as the constructor does) and `self.second_order`. -/
structure SGHMCParams where
  lr : ℝ
  alpha : ℝ
  beta : ℝ
  n_iter_resample_v : ℤ
  second_order : Bool

/-- Embedding of `SGHMC._define_variables`: the momentum is initialized by
`tf.random_normal(tf.shape(q), stddev=tf.sqrt(lr))`. -/
noncomputable def SGHMC.define_variable (s : SGHMCParams) (z : ℝ) : ℝ :=
  random_normal (Real.sqrt s.lr) z

/-- The `old_vs` selection in `SGHMC._update`: nested `tf.cond` choosing
between the stored momentum and a fresh draw from `N(0, lr)`, keyed on
`n_iter_resample_v == 0` and `t mod n_iter_resample_v == 0`. -/
noncomputable def SGHMC.old_momentum (s : SGHMCParams) (t : ℤ) (v zre : ℝ) : ℝ :=
  if s.n_iter_resample_v = 0 then v
  else if t % s.n_iter_resample_v = 0
    then random_normal (Real.sqrt s.lr) zre
    else v

/-- Embedding of `SGHMC._update` for one (element of one) latent variable: returns
`(new_q, new_v)`.  `gf` is `grad_func` (evaluated at `qs` in the 1st-order
branch and at the half-step `q1s` in the 2nd-order branch); `zre` is the
standard-normal draw behind `resample_momentum`, `zn` the one behind
`gaussian_terms`. -/
noncomputable def SGHMC.update (s : SGHMCParams) (t : ℤ) (q v : ℝ) (gf : ℝ → ℝ)
    (zre zn : ℝ) : ℝ × ℝ :=
  let old_v := SGHMC.old_momentum s t v zre
  let gaussian_term := random_normal (Real.sqrt (2 * (s.alpha - s.beta) * s.lr)) zn
  if s.second_order = false then
    let new_v := (1 - s.alpha) * old_v + s.lr * gf q + gaussian_term
    (q + new_v, new_v)
  else
    let decay_half := Real.exp (-0.5 * s.alpha)
    let q1 := q + 0.5 * old_v
    let new_v := decay_half * (decay_half * old_v + s.lr * gf q1 + gaussian_term)
    (q1 + 0.5 * new_v, new_v)

/-- C3: with the 2nd-order integrator (and the momentum carried over, i.e. no
resampling configured), one SGHMC step from the snapshot `(q, v)` computes
`q_half = q + 0.5*v`, evaluates the gradient at `q_half` (not at `q`), decays
by `d = exp(-0.5*alpha)`, sets `v' = d*(d*v + eta*gf(q_half) + xi)` with
`xi = sqrt(2*(alpha-beta)*eta) * z` (Gaussian of variance
`2*(alpha-beta)*eta`), and `q' = q_half + 0.5*v'`. -/
theorem sghmc_second_order_spec (s : SGHMCParams) (t : ℤ) (q v : ℝ)
    (gf : ℝ → ℝ) (zre zn : ℝ) (h2 : s.second_order = true)
    (hn : s.n_iter_resample_v = 0)
    (hv : 0 ≤ 2 * (s.alpha - s.beta) * s.lr) :
    SGHMC.update s t q v gf zre zn =
      (q + 0.5 * v + 0.5 * (Real.exp (-0.5 * s.alpha) *
          (Real.exp (-0.5 * s.alpha) * v + s.lr * gf (q + 0.5 * v) +
            Real.sqrt (2 * (s.alpha - s.beta) * s.lr) * zn)),
        Real.exp (-0.5 * s.alpha) *
          (Real.exp (-0.5 * s.alpha) * v + s.lr * gf (q + 0.5 * v) +
            Real.sqrt (2 * (s.alpha - s.beta) * s.lr) * zn)) ∧
    Real.sqrt (2 * (s.alpha - s.beta) * s.lr) ^ 2 =
      2 * (s.alpha - s.beta) * s.lr := by
  refine ⟨?_, Real.sq_sqrt hv⟩
  simp [SGHMC.update, SGHMC.old_momentum, random_normal, h2, hn]

/-- Witness for `sghmc_second_order_spec` at `lr = 1`, `alpha = 1`, `beta = 0`,
no resampling, 2nd order, `q = 0`, `v = 0`, identity gradient, zero draws. -/
theorem sghmc_second_order_spec_witness :
    SGHMC.update ⟨1, 1, 0, 0, true⟩ 0 0 0 (fun x => x) 0 0 =
      (0 + 0.5 * 0 + 0.5 * (Real.exp (-0.5 * 1) *
          (Real.exp (-0.5 * 1) * 0 + 1 * (fun x : ℝ => x) (0 + 0.5 * 0) +
            Real.sqrt (2 * (1 - 0) * 1) * 0)),
        Real.exp (-0.5 * 1) *
          (Real.exp (-0.5 * 1) * 0 + 1 * (fun x : ℝ => x) (0 + 0.5 * 0) +
            Real.sqrt (2 * (1 - 0) * 1) * 0)) :=
  (sghmc_second_order_spec ⟨1, 1, 0, 0, true⟩ 0 0 0 (fun x => x) 0 0 rfl rfl
    (by norm_num)).1

/-- C5: with the 1st-order integrator (and the momentum carried over, i.e. no
resampling configured), one SGHMC step computes
`v' = (1-alpha)*v + eta*gf(q) + xi` with the gradient evaluated at the current
position `q` and `xi = sqrt(2*(alpha-beta)*eta) * z` (Gaussian of variance
`2*(alpha-beta)*eta`), and `q' = q + v'`. -/
theorem sghmc_first_order_spec (s : SGHMCParams) (t : ℤ) (q v : ℝ)
    (gf : ℝ → ℝ) (zre zn : ℝ) (h1 : s.second_order = false)
    (hn : s.n_iter_resample_v = 0)
    (hv : 0 ≤ 2 * (s.alpha - s.beta) * s.lr) :
    SGHMC.update s t q v gf zre zn =
      (q + ((1 - s.alpha) * v + s.lr * gf q +
          Real.sqrt (2 * (s.alpha - s.beta) * s.lr) * zn),
        (1 - s.alpha) * v + s.lr * gf q +
          Real.sqrt (2 * (s.alpha - s.beta) * s.lr) * zn) ∧
    Real.sqrt (2 * (s.alpha - s.beta) * s.lr) ^ 2 =
      2 * (s.alpha - s.beta) * s.lr := by
  refine ⟨?_, Real.sq_sqrt hv⟩
  simp [SGHMC.update, SGHMC.old_momentum, random_normal, h1, hn]

/-- Witness for `sghmc_first_order_spec` at `lr = 1`, `alpha = 1`, `beta = 0`,
no resampling, 1st order, `q = 0`, `v = 0`, identity gradient, zero draws. -/
theorem sghmc_first_order_spec_witness :
    SGHMC.update ⟨1, 1, 0, 0, false⟩ 0 0 0 (fun x => x) 0 0 =
      (0 + ((1 - 1) * 0 + 1 * (fun x : ℝ => x) 0 +
          Real.sqrt (2 * (1 - 0) * 1) * 0),
        (1 - 1) * 0 + 1 * (fun x : ℝ => x) 0 +
          Real.sqrt (2 * (1 - 0) * 1) * 0) :=
  (sghmc_first_order_spec ⟨1, 1, 0, 0, false⟩ 0 0 0 (fun x => x) 0 0 rfl rfl
    (by norm_num)).1

/-- C9: with `learning_rate = 0`, the momentum drawn at initialization is
`sqrt(0) * z = 0`, and an SGHMC step from zero momentum leaves the position
exactly unchanged and keeps the momentum at zero, for every friction, every
variance estimate, every resample configuration and both integrator orders:
the resampled momentum, the gradient contribution and the noise term all
vanish with `eta = 0`. -/
theorem sghmc_zero_lr_fixed (s : SGHMCParams) (t : ℤ) (q v : ℝ) (gf : ℝ → ℝ)
    (zre zn zinit : ℝ) (hlr : s.lr = 0) (hv : v = 0) :
    SGHMC.define_variable s zinit = 0 ∧
    (SGHMC.update s t q v gf zre zn).1 = q ∧
    (SGHMC.update s t q v gf zre zn).2 = 0 := by
  have hold : SGHMC.old_momentum s t v zre = 0 := by
    simp [SGHMC.old_momentum, random_normal, hlr, hv]
  have hgauss :
      random_normal (Real.sqrt (2 * (s.alpha - s.beta) * s.lr)) zn = 0 := by
    simp [random_normal, hlr]
  refine ⟨by simp [SGHMC.define_variable, random_normal, hlr], ?_, ?_⟩ <;>
    · cases h2 : s.second_order <;>
        simp [SGHMC.update, hold, hgauss, h2, hlr, random_normal]

/-- Witness for `sghmc_zero_lr_fixed` at `lr = 0`, `alpha = 0.3`, `beta = 0`,
resample period 5, 2nd order, `t = 0`, `q = 7`, `v = 0`, identity gradient. -/
theorem sghmc_zero_lr_fixed_witness :
    (SGHMC.update ⟨0, 0.3, 0, 5, true⟩ 0 7 0 (fun x => x) 1 1).1 = 7 :=
  (sghmc_zero_lr_fixed ⟨0, 0.3, 0, 5, true⟩ 0 7 0 (fun x => x) 1 1 2 rfl
    rfl).2.1

/-- Hyperparameters of `SGNHT.__init__`: `self.lr`, `self.a` (variance_extra),
`self.tune_rate`, `self.n_iter_resample_v` (with `None` already coerced to `0`
as the constructor does) and `self.second_order`.  The `use_vector_alpha` flag
selects between `SGNHT.update_scalar` and `SGNHT.update_vector` below. -/
structure SGNHTParams where
  lr : ℝ
  a : ℝ
  tune_rate : ℝ
  n_iter_resample_v : ℤ
  second_order : Bool

/-- Embedding of `tf.reduce_mean` for an `n`-element tensor. -/
noncomputable def tensorMean (n : ℕ) (x : Fin n → ℝ) : ℝ := (∑ i, x i) / n

/-- The `old_vs` selection in `SGNHT._update` for one latent tensor: nested
`tf.cond` choosing between the stored momentum and a fresh element-wise draw
from `N(0, lr)`, keyed on `n_iter_resample_v == 0` and
`t mod n_iter_resample_v == 0`. -/
noncomputable def SGNHT.old_momentum (s : SGNHTParams) (t : ℤ) (n : ℕ)
    (v zre : Fin n → ℝ) : Fin n → ℝ :=
  if s.n_iter_resample_v = 0 then v
  else if t % s.n_iter_resample_v = 0
    then fun i => random_normal (Real.sqrt s.lr) (zre i)
    else v

/-- Embedding of `SGNHT._update` for one latent tensor in scalar-friction mode
(`use_vector_alpha = False`, so `maybe_reduce_mean = tf.reduce_mean` and the
friction `alpha` is a scalar).  Returns `(new_q, new_v, new_alpha)`. -/
noncomputable def SGNHT.update_scalar (s : SGNHTParams) (t : ℤ) (n : ℕ)
    (q v : Fin n → ℝ) (alpha : ℝ) (gf : (Fin n → ℝ) → Fin n → ℝ)
    (zre zn : Fin n → ℝ) : (Fin n → ℝ) × (Fin n → ℝ) × ℝ :=
  let old_v := SGNHT.old_momentum s t n v zre
  let gaussian := fun i => random_normal (Real.sqrt (2 * s.a * s.lr)) (zn i)
  if s.second_order = false then
    let new_v := fun i => (1 - alpha) * old_v i + s.lr * gf q i + gaussian i
    let new_q := fun i => q i + new_v i
    let mean_k := tensorMean n (fun i => new_v i ^ 2)
    let new_alpha := alpha + s.tune_rate * (mean_k - s.lr)
    (new_q, new_v, new_alpha)
  else
    let q1 := fun i => q i + 0.5 * old_v i
    let mean_k1 := tensorMean n (fun i => old_v i ^ 2)
    let alpha1 := alpha + 0.5 * s.tune_rate * (mean_k1 - s.lr)
    let decay_half := Real.exp (-0.5 * alpha1)
    let new_v := fun i =>
      decay_half * (decay_half * old_v i + s.lr * gf q1 i + gaussian i)
    let new_q := fun i => q1 i + 0.5 * new_v i
    let mean_k := tensorMean n (fun i => new_v i ^ 2)
    let new_alpha := alpha1 + 0.5 * s.tune_rate * (mean_k - s.lr)
    (new_q, new_v, new_alpha)

/-- Embedding of `SGNHT._update` for one latent tensor in vector-friction mode
(`use_vector_alpha = True`, so `maybe_reduce_mean` is the identity and the
friction has the shape of the latent variable).  Returns
`(new_q, new_v, new_alpha)`. -/
noncomputable def SGNHT.update_vector (s : SGNHTParams) (t : ℤ) (n : ℕ)
    (q v alpha : Fin n → ℝ) (gf : (Fin n → ℝ) → Fin n → ℝ)
    (zre zn : Fin n → ℝ) : (Fin n → ℝ) × (Fin n → ℝ) × (Fin n → ℝ) :=
  let old_v := SGNHT.old_momentum s t n v zre
  let gaussian := fun i => random_normal (Real.sqrt (2 * s.a * s.lr)) (zn i)
  if s.second_order = false then
    let new_v := fun i => (1 - alpha i) * old_v i + s.lr * gf q i + gaussian i
    let new_q := fun i => q i + new_v i
    let mean_k := fun i => new_v i ^ 2
    let new_alpha := fun i => alpha i + s.tune_rate * (mean_k i - s.lr)
    (new_q, new_v, new_alpha)
  else
    let q1 := fun i => q i + 0.5 * old_v i
    let mean_k1 := fun i => old_v i ^ 2
    let alpha1 := fun i => alpha i + 0.5 * s.tune_rate * (mean_k1 i - s.lr)
    let decay_half := fun i => Real.exp (-0.5 * alpha1 i)
    let new_v := fun i =>
      decay_half i * (decay_half i * old_v i + s.lr * gf q1 i + gaussian i)
    let new_q := fun i => q1 i + 0.5 * new_v i
    let mean_k := fun i => new_v i ^ 2
    let new_alpha := fun i => alpha1 i + 0.5 * s.tune_rate * (mean_k i - s.lr)
    (new_q, new_v, new_alpha)

/-- Embedding of `SGNHT._define_variables`: the friction starts at the configured
`variance_extra` value `a` (broadcast over the latent shape in vector mode). -/
noncomputable def SGNHT.define_variable_alpha (s : SGNHTParams) : ℝ := s.a

/-- C4: with the 2nd-order integrator (and the momentum carried over, i.e. no
resampling configured), one SGNHT step uses the noise
`xi = sqrt(2*a*eta) * z` whose variance `2*a*eta` depends only on the fixed
`variance_extra` `a` (the adapting friction does not appear in it), and
performs, in order: `q_half = q + 0.5*v`; friction half-update
`alpha_half = alpha + 0.5*tune_rate*(mean(v^2) - eta)` from the pre-step
kinetic energy; `d = exp(-0.5*alpha_half)`;
`v' = d*(d*v + eta*gf(q_half) + xi)`; `q' = q_half + 0.5*v'`; final friction
`alpha' = alpha_half + 0.5*tune_rate*(mean(v'^2) - eta)` — with `mean`
replaced by the full element-wise tensor in vector-friction mode. -/
theorem sgnht_second_order_spec (s : SGNHTParams) (t : ℤ) (n : ℕ)
    (q v : Fin n → ℝ) (alpha : ℝ) (alphav : Fin n → ℝ)
    (gf : (Fin n → ℝ) → Fin n → ℝ) (zre zn : Fin n → ℝ)
    (h2 : s.second_order = true) (hn : s.n_iter_resample_v = 0)
    (hv : 0 ≤ 2 * s.a * s.lr) :
    (SGNHT.update_scalar s t n q v alpha gf zre zn =
      (fun i => (q i + 0.5 * v i) + 0.5 *
          (Real.exp (-0.5 * (alpha + 0.5 * s.tune_rate *
              (tensorMean n (fun j => v j ^ 2) - s.lr))) *
            (Real.exp (-0.5 * (alpha + 0.5 * s.tune_rate *
                (tensorMean n (fun j => v j ^ 2) - s.lr))) * v i +
              s.lr * gf (fun j => q j + 0.5 * v j) i +
              Real.sqrt (2 * s.a * s.lr) * zn i)),
        fun i =>
          Real.exp (-0.5 * (alpha + 0.5 * s.tune_rate *
              (tensorMean n (fun j => v j ^ 2) - s.lr))) *
            (Real.exp (-0.5 * (alpha + 0.5 * s.tune_rate *
                (tensorMean n (fun j => v j ^ 2) - s.lr))) * v i +
              s.lr * gf (fun j => q j + 0.5 * v j) i +
              Real.sqrt (2 * s.a * s.lr) * zn i),
        (alpha + 0.5 * s.tune_rate * (tensorMean n (fun j => v j ^ 2) - s.lr)) +
          0.5 * s.tune_rate *
            (tensorMean n (fun i =>
              (Real.exp (-0.5 * (alpha + 0.5 * s.tune_rate *
                  (tensorMean n (fun j => v j ^ 2) - s.lr))) *
                (Real.exp (-0.5 * (alpha + 0.5 * s.tune_rate *
                    (tensorMean n (fun j => v j ^ 2) - s.lr))) * v i +
                  s.lr * gf (fun j => q j + 0.5 * v j) i +
                  Real.sqrt (2 * s.a * s.lr) * zn i)) ^ 2) - s.lr))) ∧
    (SGNHT.update_vector s t n q v alphav gf zre zn =
      (fun i => (q i + 0.5 * v i) + 0.5 *
          (Real.exp (-0.5 * (alphav i + 0.5 * s.tune_rate *
              (v i ^ 2 - s.lr))) *
            (Real.exp (-0.5 * (alphav i + 0.5 * s.tune_rate *
                (v i ^ 2 - s.lr))) * v i +
              s.lr * gf (fun j => q j + 0.5 * v j) i +
              Real.sqrt (2 * s.a * s.lr) * zn i)),
        fun i =>
          Real.exp (-0.5 * (alphav i + 0.5 * s.tune_rate *
              (v i ^ 2 - s.lr))) *
            (Real.exp (-0.5 * (alphav i + 0.5 * s.tune_rate *
                (v i ^ 2 - s.lr))) * v i +
              s.lr * gf (fun j => q j + 0.5 * v j) i +
              Real.sqrt (2 * s.a * s.lr) * zn i),
        fun i => (alphav i + 0.5 * s.tune_rate * (v i ^ 2 - s.lr)) +
          0.5 * s.tune_rate *
            ((Real.exp (-0.5 * (alphav i + 0.5 * s.tune_rate *
                  (v i ^ 2 - s.lr))) *
                (Real.exp (-0.5 * (alphav i + 0.5 * s.tune_rate *
                    (v i ^ 2 - s.lr))) * v i +
                  s.lr * gf (fun j => q j + 0.5 * v j) i +
                  Real.sqrt (2 * s.a * s.lr) * zn i)) ^ 2 - s.lr))) ∧
    Real.sqrt (2 * s.a * s.lr) ^ 2 = 2 * s.a * s.lr := by
  refine ⟨?_, ?_, Real.sq_sqrt hv⟩ <;>
    simp [SGNHT.update_scalar, SGNHT.update_vector, SGNHT.old_momentum,
      random_normal, h2, hn]

/-- Witness for `sgnht_second_order_spec` at `lr = 1`, `a = 0`, `tune_rate = 1`,
no resampling, 2nd order, a one-element latent with `q = 0`, `v = 0`,
`alpha = 0`, identity gradient and zero draws, reading off the final scalar
friction component. -/
theorem sgnht_second_order_spec_witness :
    (SGNHT.update_scalar ⟨1, 0, 1, 0, true⟩ 0 1 (fun _ => 0) (fun _ => 0) 0
        (fun x => x) (fun _ => 0) (fun _ => 0)).2.2 =
      (0 + 0.5 * 1 * (tensorMean 1 (fun _ => (0:ℝ) ^ 2) - 1)) +
        0.5 * 1 *
          (tensorMean 1 (fun i =>
            (Real.exp (-0.5 * (0 + 0.5 * 1 *
                (tensorMean 1 (fun _ => (0:ℝ) ^ 2) - 1))) *
              (Real.exp (-0.5 * (0 + 0.5 * 1 *
                  (tensorMean 1 (fun _ => (0:ℝ) ^ 2) - 1))) * 0 +
                1 * (fun x : Fin 1 → ℝ => x) (fun _ => 0 + 0.5 * 0) i +
                Real.sqrt (2 * 0 * 1) * 0)) ^ 2) - 1) := by
  have h := (sgnht_second_order_spec ⟨1, 0, 1, 0, true⟩ 0 1 (fun _ => 0)
    (fun _ => 0) 0 (fun _ => 0) (fun x => x) (fun _ => 0) (fun _ => 0) rfl rfl
    (by norm_num)).1
  exact congrArg (fun p => p.2.2) h

/-- C7: in both SGHMC and SGNHT, the momentum used by the update is the fresh
draw `sqrt(eta) * z` from `N(0, eta)` exactly when the resample period is
nonzero and the shared counter satisfies `t mod period == 0`; otherwise
(in particular whenever the period is `0`, the coercion of `None`) the stored
momentum is carried over.  The interface is the same for every latent
variable: the selection depends only on the shared counter and period. -/
theorem momentum_resample_iff (sh : SGHMCParams) (sn : SGNHTParams) (t : ℤ)
    (n : ℕ) (v zre : ℝ) (vt zret : Fin n → ℝ)
    (hlrh : 0 ≤ sh.lr) (hlrn : 0 ≤ sn.lr) :
    SGHMC.old_momentum sh t v zre =
      (if sh.n_iter_resample_v ≠ 0 ∧ t % sh.n_iter_resample_v = 0
        then Real.sqrt sh.lr * zre else v) ∧
    SGNHT.old_momentum sn t n vt zret =
      (if sn.n_iter_resample_v ≠ 0 ∧ t % sn.n_iter_resample_v = 0
        then fun i => Real.sqrt sn.lr * zret i else vt) ∧
    Real.sqrt sh.lr ^ 2 = sh.lr ∧ Real.sqrt sn.lr ^ 2 = sn.lr := by
  refine ⟨?_, ?_, Real.sq_sqrt hlrh, Real.sq_sqrt hlrn⟩
  · rcases eq_or_ne sh.n_iter_resample_v 0 with h | h <;>
      by_cases hm : t % sh.n_iter_resample_v = 0 <;>
      simp [SGHMC.old_momentum, random_normal, h, hm]
  · rcases eq_or_ne sn.n_iter_resample_v 0 with h | h <;>
      by_cases hm : t % sn.n_iter_resample_v = 0 <;>
      simp [SGNHT.old_momentum, random_normal, h, hm]

/-- Witness for `momentum_resample_iff` with period 3 at `t = 6` (resampling
fires) for SGHMC and period 0 at `t = 6` (momentum carried) for SGNHT. -/
theorem momentum_resample_iff_witness :
    SGHMC.old_momentum ⟨1, 0.25, 0, 3, true⟩ 6 5 2 =
      (if (3:ℤ) ≠ 0 ∧ (6:ℤ) % 3 = 0 then Real.sqrt 1 * 2 else 5) ∧
    SGNHT.old_momentum ⟨1, 0, 1, 0, true⟩ 6 1 (fun _ => 5) (fun _ => 2) =
      (if (0:ℤ) ≠ 0 ∧ (6:ℤ) % 0 = 0 then fun _ => Real.sqrt 1 * 2 else
        fun _ => 5) := by
  have h := momentum_resample_iff ⟨1, 0.25, 0, 3, true⟩ ⟨1, 0, 1, 0, true⟩ 6 1
    5 2 (fun _ => 5) (fun _ => 2) (by norm_num) (by norm_num)
  exact ⟨h.1, h.2.1⟩

/-- C10: with any nonzero resample period `k`, the very first sampling
iteration (`t = 0`) resamples the momentum in both SGHMC and SGNHT, since
`0 mod k = 0`; consequently the momentum drawn at auxiliary-state
initialization never influences the first update: the selected momentum is
the fresh draw, and the whole first update is invariant under changing the
stored momentum. -/
theorem first_iteration_resamples (sh : SGHMCParams) (sn : SGNHTParams)
    (n : ℕ) (q v v' zre zn : ℝ) (gf : ℝ → ℝ)
    (qt vt vt' zret znt : Fin n → ℝ) (alpha : ℝ)
    (gft : (Fin n → ℝ) → Fin n → ℝ)
    (hkh : sh.n_iter_resample_v ≠ 0) (hkn : sn.n_iter_resample_v ≠ 0) :
    SGHMC.old_momentum sh 0 v zre = Real.sqrt sh.lr * zre ∧
    SGHMC.update sh 0 q v gf zre zn = SGHMC.update sh 0 q v' gf zre zn ∧
    SGNHT.old_momentum sn 0 n vt zret = (fun i => Real.sqrt sn.lr * zret i) ∧
    SGNHT.update_scalar sn 0 n qt vt alpha gft zret znt =
      SGNHT.update_scalar sn 0 n qt vt' alpha gft zret znt := by
  have hh : SGHMC.old_momentum sh 0 v zre = Real.sqrt sh.lr * zre := by
    simp [SGHMC.old_momentum, random_normal, hkh]
  have hh' : SGHMC.old_momentum sh 0 v' zre = Real.sqrt sh.lr * zre := by
    simp [SGHMC.old_momentum, random_normal, hkh]
  have hn : SGNHT.old_momentum sn 0 n vt zret =
      (fun i => Real.sqrt sn.lr * zret i) := by
    simp [SGNHT.old_momentum, random_normal, hkn]
  have hn' : SGNHT.old_momentum sn 0 n vt' zret =
      (fun i => Real.sqrt sn.lr * zret i) := by
    simp [SGNHT.old_momentum, random_normal, hkn]
  refine ⟨hh, ?_, hn, ?_⟩
  · unfold SGHMC.update
    rw [hh, hh']
  · unfold SGNHT.update_scalar
    rw [hn, hn']

/-- Witness for `first_iteration_resamples` with period 7 for both samplers
at `t = 0`, stored momenta 5 and -5, reading off the SGHMC selection. -/
theorem first_iteration_resamples_witness :
    SGHMC.old_momentum ⟨1, 0.25, 0, 7, true⟩ 0 5 2 = Real.sqrt 1 * 2 :=
  (first_iteration_resamples ⟨1, 0.25, 0, 7, true⟩ ⟨1, 0, 1, 7, true⟩ 1 0 5
    (-5) 2 0 (fun x => x) (fun _ => 0) (fun _ => 5) (fun _ => -5) (fun _ => 2)
    (fun _ => 0) 0 (fun x => x) (by norm_num) (by norm_num)).1

/-- One committed storage cell after a sampling run: `tf.assign` executes only
when its input was produced; an assign whose input computation failed
upstream never runs and the variable keeps its previous value. -/
def tfCommit {α : Type} (old : α) (new? : Option α) : α := new?.getD old

/-- One call of the SGLD sampling operation with a gradient computation that
may fail (`none`): the assign to `q` consumes the gradient, so it commits only
when the gradient was produced. -/
noncomputable def SGLD.iterate (s : SGLDParams) (q z : ℝ) (grad? : Option ℝ) :
    ℝ :=
  tfCommit q (grad?.map fun g => SGLD.update_single s q g z)

/-- One call of the PSGLD sampling operation with a gradient computation that
may fail.  Exactly as in the graph built by `PSGLD._update_single`: the
accumulator assign (inside `_get_preconditioner`) consumes the gradient, the
preconditioner consumes the accumulator assign, and the assign to `q`
consumes both the gradient and the preconditioner. -/
noncomputable def PSGLD.iterate (s : SGLDParams) (hps : RMSHParams)
    (q aux z : ℝ) (grad? : Option ℝ) : ℝ × ℝ :=
  let newAux? := grad?.map fun g => hps.decay * aux + (1 - hps.decay) * g ^ 2
  let precond? := newAux?.map fun a => 1 / (hps.epsilon + Real.sqrt a)
  let newQ? := grad?.bind fun g => precond?.map fun gm =>
    let new_q := q + 0.5 * s.lr * gm * g
    if s.add_noise then new_q + random_normal (Real.sqrt (s.lr * gm)) z
    else new_q
  (tfCommit q newQ?, tfCommit aux newAux?)

/-- One call of the SGHMC sampling operation with a gradient function that may
fail: `new_qs` and `new_vs` are both computed from the snapshot before either
assign runs (`tf.control_dependencies(new_vs + new_qs)`), and both assigns
consume the gradient. -/
noncomputable def SGHMC.iterate (s : SGHMCParams) (t : ℤ) (q v zre zn : ℝ)
    (gf? : Option (ℝ → ℝ)) : ℝ × ℝ :=
  let res? := gf?.map fun gf => SGHMC.update s t q v gf zre zn
  (tfCommit q (res?.map Prod.fst), tfCommit v (res?.map Prod.snd))

/-- One call of the SGNHT sampling operation (scalar-friction mode) with a
gradient function that may fail: the `q`, `v` and `alpha` assigns all consume
values computed from the one snapshot, downstream of the gradient. -/
noncomputable def SGNHT.iterate (s : SGNHTParams) (t : ℤ) (n : ℕ)
    (q v : Fin n → ℝ) (alpha : ℝ) (zre zn : Fin n → ℝ)
    (gf? : Option ((Fin n → ℝ) → Fin n → ℝ)) :
    (Fin n → ℝ) × (Fin n → ℝ) × ℝ :=
  let res? := gf?.map fun gf => SGNHT.update_scalar s t n q v alpha gf zre zn
  (tfCommit q (res?.map fun r => r.1), tfCommit v (res?.map fun r => r.2.1),
    tfCommit alpha (res?.map fun r => r.2.2))

/-- C1: for each of the four samplers, one call of the sampling operation
either commits every new latent value and every piece of auxiliary state
together as one step (exactly the values of the corresponding update rule),
or — when the upstream gradient computation fails — leaves every latent value
and every piece of auxiliary state completely unchanged; no mixed outcome
exists.  In particular the PSGLD preconditioner accumulator is updated
exactly when the latent value is updated in the same iteration. -/
theorem sgmcmc_iteration_atomic (s1 : SGLDParams) (hps : RMSHParams)
    (s3 : SGHMCParams) (s4 : SGNHTParams) (t : ℤ) (n : ℕ)
    (q aux v z zre zn : ℝ) (grad? : Option ℝ)
    (qt vt zret znt : Fin n → ℝ) (alpha : ℝ)
    (gf? : Option (ℝ → ℝ)) (gft? : Option ((Fin n → ℝ) → Fin n → ℝ)) :
    ((grad? = none ∧ SGLD.iterate s1 q z grad? = q) ∨
      ∃ g, grad? = some g ∧
        SGLD.iterate s1 q z grad? = SGLD.update_single s1 q g z) ∧
    ((grad? = none ∧ PSGLD.iterate s1 hps q aux z grad? = (q, aux)) ∨
      ∃ g, grad? = some g ∧
        PSGLD.iterate s1 hps q aux z grad? =
          PSGLD.update_single s1 hps q g aux z) ∧
    ((gf? = none ∧ SGHMC.iterate s3 t q v zre zn gf? = (q, v)) ∨
      ∃ gf, gf? = some gf ∧
        SGHMC.iterate s3 t q v zre zn gf? = SGHMC.update s3 t q v gf zre zn) ∧
    ((gft? = none ∧
        SGNHT.iterate s4 t n qt vt alpha zret znt gft? = (qt, vt, alpha)) ∨
      ∃ gf, gft? = some gf ∧
        SGNHT.iterate s4 t n qt vt alpha zret znt gft? =
          SGNHT.update_scalar s4 t n qt vt alpha gf zret znt) := by
  refine ⟨?_, ?_, ?_, ?_⟩
  · cases grad? with
    | none => exact Or.inl ⟨rfl, rfl⟩
    | some g => exact Or.inr ⟨g, rfl, rfl⟩
  · cases grad? with
    | none => exact Or.inl ⟨rfl, rfl⟩
    | some g =>
      refine Or.inr ⟨g, rfl, ?_⟩
      simp [PSGLD.iterate, PSGLD.update_single,
        RMSPreconditioner.get_preconditioner, tfCommit]
  · cases gf? with
    | none => exact Or.inl ⟨rfl, rfl⟩
    | some gf => exact Or.inr ⟨gf, rfl, rfl⟩
  · cases gft? with
    | none => exact Or.inl ⟨rfl, rfl⟩
    | some gf => exact Or.inr ⟨gf, rfl, rfl⟩

/-- A value appearing in the `latent` or `observed` dictionaries: either a
tensorflow `Variable` (genuine mutable storage, identified by a cell id) or a
plain tensor. -/
inductive TFObj where
  | var : ℕ → TFObj
  | tens : ℕ → TFObj

/-- Test for `isinstance(v, tf.Variable)`. -/
def TFObj.isVariable : TFObj → Bool
  | .var _ => true
  | .tens _ => false

/-- Modelled from the spec: `zhusuan.utils.merge_dicts` (the module
`zhusuan/utils.py` is not under `src/`) — the union of two name-to-value
bindings, forming the joint observation fed to the log joint. -/
def merge_dicts (d1 d2 : List (String × TFObj)) : List (String × TFObj) :=
  d1 ++ d2

/-- The validation loop of `SGMCMC.make_grad_func`: walk the entries of
`latent` in order and report the first name whose value is not a tensorflow
`Variable` (the `raise TypeError` branch); `none` when every entry is a
`Variable`. -/
def checkLatent : List (String × TFObj) → Option String
  | [] => none
  | (k, v) :: rest => if v.isVariable then checkLatent rest else some k

/-- Kinds of error the binding call raises: `TypeError` from the
`Variable` validation loop, `ValueError` from unpacking
`zip(*six.iteritems(latent))`. -/
inductive PyError where
  | typeError : String → PyError
  | valueError : String → PyError

/-- Embedding of `SGMCMC.make_grad_func`, with the external autodiff machinery abstract:
`log_joint` is the log joint function supplied by the user and `gradients` is
`tf.gradients`.  The unpacking
`latent_k, latent_v = [list(i) for i in zip(*six.iteritems(latent))]` runs
first and raises `ValueError` ("not enough values to unpack") when the latent
mapping is empty; then the validation loop raises `TypeError` at the first
entry that is not a `Variable`; otherwise the call returns the default
gradient function (closing over `observed`), the observed-parameterized
gradient function, and the ordered `Variable` list. -/
def make_grad_func (log_joint : List (String × TFObj) → ℝ)
    (gradients : ℝ → List TFObj → List ℝ)
    (observed latent : List (String × TFObj)) :
    Except PyError ((List TFObj → List ℝ) ×
      (List TFObj → List (String × TFObj) → List ℝ) × List TFObj) :=
  if latent.isEmpty then
    .error (.valueError "not enough values to unpack (expected 2, got 0)")
  else
    let latent_k := latent.map Prod.fst
    let latent_v := latent.map Prod.snd
    match checkLatent latent with
    | some k =>
      .error (.typeError ("latent[" ++ k ++ "] is not a tensorflow Variable."))
    | none =>
      let get_log_posterior := fun (var_list : List TFObj)
          (obs : List (String × TFObj)) =>
        log_joint (merge_dicts (latent_k.zip var_list) obs)
      let get_gradient := fun (var_list : List TFObj)
          (obs : List (String × TFObj)) =>
        gradients (get_log_posterior var_list obs) var_list
      .ok (fun var_list => get_gradient var_list observed, get_gradient,
        latent_v)

/-- The validation loop accepts exactly the mappings whose entries are all
`Variable`s. -/
theorem checkLatent_eq_none_iff (l : List (String × TFObj)) :
    checkLatent l = none ↔ ∀ kv ∈ l, kv.2.isVariable = true := by
  induction l with
  | nil => simp [checkLatent]
  | cons hd tl ih =>
    obtain ⟨k, v⟩ := hd
    by_cases h : v.isVariable <;> simp [checkLatent, h, ih]

/-- C8 counterexample: at the empty latent mapping — where every entry is
vacuously mutable storage — the binding call does not succeed: line 138 of
`sgmcmc.py` raises `ValueError` unpacking `zip(*six.iteritems({}))` before
the `Variable` check, so the bind returns an unpacking error instead of the
three artifacts. -/
theorem make_grad_func_empty_fails :
    make_grad_func (fun _ => 0) (fun _ _ => []) [] [] =
      .error (PyError.valueError
        "not enough values to unpack (expected 2, got 0)") := rfl

/-- C8 (amended): the binding call fails at bind time, in `make_grad_func`
itself, before any sampling call — with the TypeError-kind error exactly when
some entry of the latent mapping is not a tensorflow `Variable`, and with a
ValueError-kind unpacking error when the latent mapping is empty; when the
mapping is nonempty and every entry is genuine mutable storage it returns the
default gradient function, the observed-parameterized gradient function, and
the ordered list of storage handles. -/
theorem make_grad_func_spec (log_joint : List (String × TFObj) → ℝ)
    (gradients : ℝ → List TFObj → List ℝ)
    (observed latent : List (String × TFObj)) :
    (latent = [] →
      make_grad_func log_joint gradients observed latent =
        .error (.valueError
          "not enough values to unpack (expected 2, got 0)")) ∧
    ((∃ kv ∈ latent, kv.2.isVariable = false) ↔
      ∃ msg, make_grad_func log_joint gradients observed latent =
        .error (.typeError msg)) ∧
    (latent ≠ [] → (∀ kv ∈ latent, kv.2.isVariable = true) →
      make_grad_func log_joint gradients observed latent =
        .ok (fun var_list => gradients
              (log_joint (merge_dicts ((latent.map Prod.fst).zip var_list)
                observed)) var_list,
          fun var_list obs => gradients
            (log_joint (merge_dicts ((latent.map Prod.fst).zip var_list) obs))
            var_list,
          latent.map Prod.snd)) := by
  refine ⟨fun he => by subst he; rfl, ?_, ?_⟩
  · constructor
    · intro hbad
      obtain ⟨k, hk⟩ : ∃ k, checkLatent latent = some k := by
        rcases h : checkLatent latent with _ | k
        · exfalso
          obtain ⟨kv, hmem, hfalse⟩ := hbad
          have := (checkLatent_eq_none_iff latent).1 h kv hmem
          simp [this] at hfalse
        · exact ⟨k, rfl⟩
      refine ⟨"latent[" ++ k ++ "] is not a tensorflow Variable.", ?_⟩
      obtain ⟨kv, hmem, _⟩ := hbad
      cases latent with
      | nil => cases hmem
      | cons hd tl => simp [make_grad_func, hk]
    · rintro ⟨msg, hmsg⟩
      by_contra hall
      push_neg at hall
      have hnone : checkLatent latent = none :=
        (checkLatent_eq_none_iff latent).2 fun kv hkv => by
          have := hall kv hkv
          simpa using this
      cases latent with
      | nil => simp [make_grad_func] at hmsg
      | cons hd tl => simp [make_grad_func, hnone] at hmsg
  · intro hne hall
    have hnone : checkLatent latent = none :=
      (checkLatent_eq_none_iff latent).2 hall
    cases latent with
    | nil => exact absurd rfl hne
    | cons hd tl => simp [make_grad_func, hnone, merge_dicts]

/-- Witness for `make_grad_func_spec`: a single latent entry that is a
`Variable` binds successfully and returns the three artifacts. -/
theorem make_grad_func_spec_witness :
    make_grad_func (fun _ => 0) (fun _ _ => []) []
        [("w1", TFObj.var 0)] =
      .ok (fun _ => [], fun _ _ => [], [TFObj.var 0]) :=
  (make_grad_func_spec (fun _ => 0) (fun _ _ => []) []
    [("w1", TFObj.var 0)]).2.2 (by simp) (by simp [TFObj.isVariable])
